import Mathlib

/-!
Verification of the tax-calculator repository: a shallow embedding of the
backend refund endpoints (`server.js`, current and legacy versions) and of the
client widget `CalculatorEmbed.tsx` (session-scoped cache and UI state
machine), together with theorems settling the specification claims.

Modelling conventions:
* JavaScript numbers are idealized as exact rationals `ℚ` together with the
  three non-finite values (`NaN`, `±Infinity`); the arithmetic in the refund
  formula is modelled exactly (the spec's properties are stated over exact
  decimal arithmetic).
* `Math.round x` is `⌊x + 1/2⌋`, which is Mathlib's `round` on `ℚ` (both
  round halves toward positive infinity).
* A JavaScript string that only ever flows into `parseFloat` is abstracted by
  the number `parseFloat` yields on it (`JNum.nan` when parsing fails).
* Browser storage backends (sessionStorage, localStorage, IndexedDB) are
  modelled as always-available single slots; the source swallows every
  storage failure into a no-op, so the failure branches carry no behaviour.
-/

/-! ## JavaScript value model -/

/-- A JavaScript number: a finite value (exact rational) or one of the three
non-finite values. -/
inductive JNum where
  | fin (q : ℚ)
  | posInf
  | negInf
  | nan
deriving DecidableEq, Repr

/-- A JavaScript value as seen by a `typeof x === "number"` test: either a
number, or any other value abstracted by the result JavaScript `parseFloat`
returns on it (`JNum.nan` when parsing fails; non-strings stringify first,
e.g. `parseFloat(undefined)` and `parseFloat({})` are `NaN`). -/
inductive JVal where
  | num (x : JNum)
  | nonNum (pf : JNum)
deriving DecidableEq, Repr

/-- `Number.isFinite` on a JavaScript number. -/
def jnumIsFinite : JNum → Bool
  | JNum.fin _ => true
  | _ => false

/-- The `x < 0` comparison on a JavaScript number (`NaN < 0` is false). -/
def jnumLtZero : JNum → Bool
  | JNum.fin q => decide (q < 0)
  | JNum.negInf => true
  | _ => false

/-- JavaScript truthiness of a number: false exactly for `0`, `-0` and `NaN`. -/
def jsTruthy : JNum → Bool
  | JNum.fin q => decide (q ≠ 0)
  | JNum.nan => false
  | _ => true

/-- `Math.round(x * 100) / 100` — rounding to 2 decimal places, on finite
values.  `Math.round` rounds halves toward positive infinity, which is
Mathlib's `round`. -/
def round2 (x : ℚ) : ℚ := (round (x * 100) : ℤ) / 100

/-- `Math.round(x * 100) / 100` lifted to JavaScript numbers: on `±Infinity`
and `NaN` the expression returns the value itself. -/
def jsRound2 : JNum → JNum
  | JNum.fin q => JNum.fin (round2 q)
  | x => x

/-! ## String constants of the source (response payloads, MIME types) -/

def ocrManual : String := "manual"
def ocrAiExtracted : String := "ai-extracted"
def errInvalidInput : String := "Invalid input values"
def errNoFile : String := "No image file provided"
def errNoKey : String := "Server configuration error: OPENAI_API_KEY not set"
def errExtractFailed : String := "Failed to extract W-2 data"
def errNoContent : String := "Invalid response from AI"
def errParseFailed : String := "Failed to parse extracted data"
def errExtractInvalid : String := "Invalid values extracted from W-2"
def errLegacyConfig : String := "Server configuration error"
def errLegacyCalcFailed : String := "Failed to calculate estimate"
def errFileType : String := "Solo se aceptan archivos JPG, PNG y PDF."
def mimeJpeg : String := "image/jpeg"
def mimeJpg : String := "image/jpg"
def mimePng : String := "image/png"
def mimePdf : String := "application/pdf"
def mimeImages : String := "image/"
def mimeText : String := "text/plain"
def defaultFileName : String := "w2.jpg"
def blobScheme : String := "blob:"

/-! ## Backend (`server.js`, src/unnamed/part_001) -/

/-- `calculateRefund` from server.js: withheld total minus estimated federal
(12% of Box 2) and state (4% of Box 17) liabilities, clamped at 0. -/
def calculateRefund (box2Federal box17State : ℚ) : ℚ :=
  let totalWithheld := box2Federal + box17State
  let estimatedFederalLiability := box2Federal * 0.12
  let estimatedStateLiability := box17State * 0.04
  max 0 (totalWithheld - estimatedFederalLiability - estimatedStateLiability)

/-- An HTTP reply of the backend: a 200 JSON payload
`{box2Federal, box17State, estimatedRefund, ocrConfidence}` or an error
status with its `error` message. -/
inductive Reply where
  | ok (box2Federal box17State : ℚ) (estimatedRefund : JNum) (ocrConfidence : String)
  | err (status : Nat) (error : String)
deriving DecidableEq, Repr

/-- HTTP status of a reply (every success response is a 200). -/
def Reply.status : Reply → Nat
  | Reply.ok _ _ _ _ => 200
  | Reply.err s _ => s

/-- The `POST /api/calculate` handler of server.js: 400 unless both body
fields are numbers (`typeof`), finite and non-negative; otherwise 200 with
the rounded refund and confidence tag `"manual"`.  A body field is `none`
when absent from the JSON body. -/
def apiCalculate (box2Federal box17State : Option JVal) : Reply :=
  match box2Federal, box17State with
  | some (JVal.num (JNum.fin b2)), some (JVal.num (JNum.fin b17)) =>
    if b2 < 0 || b17 < 0 then Reply.err 400 errInvalidInput
    else Reply.ok b2 b17 (JNum.fin (round2 (calculateRefund b2 b17))) ocrManual
  | _, _ => Reply.err 400 errInvalidInput

/-- `String.startsWith s pre`, re-implemented on the underlying character
lists so that it evaluates inside the kernel. -/
def strStartsWith (s pre : String) : Bool := pre.data.isPrefixOf s.data

/-- The multer `fileFilter` of server.js: accept exactly the files whose MIME
type starts with `image/` (anything else is rejected with
"Only image files are allowed"). -/
def fileFilterAccepts (mimetype : String) : Bool := strStartsWith mimetype mimeImages

/-- The multer `limits.fileSize` of server.js: 10MB. -/
def maxFileSize : Nat := 10 * 1024 * 1024

/-- The JSON object extracted from the vision-model reply: the two W-2 box
fields (each possibly absent or of a non-numeric shape). -/
structure Extracted where
  box2Federal : Option JVal
  box17State : Option JVal
deriving DecidableEq, Repr

/-- The extraction-reply coercion of the upload handler:
`typeof v === "number" ? v : parseFloat(v) || 0`. -/
def coerceBox : Option JVal → JNum
  | some (JVal.num x) => x
  | some (JVal.nonNum pf) => if jsTruthy pf then pf else JNum.fin 0
  | none => JNum.fin 0

/-- Shape of the upstream vision-model reply as consumed by the upload
handler: the message content may be absent, fail `JSON.parse`, or parse to an
`Extracted` object. -/
inductive UpstreamContent where
  | missing
  | unparseable
  | parsed (e : Extracted)
deriving DecidableEq, Repr

/-- The `POST /api/upload-w2` handler of server.js (after multer): 400 when no
file survived the filter; 500 when the server credential is missing, the
upstream call is non-ok, the reply has no content, or the content fails
`JSON.parse`; otherwise each box field is coerced, validated as a finite
non-negative number (else 400), and a 200 reply carries the rounded refund
with confidence tag `"ai-extracted"`. -/
def apiUploadW2 (hasFile hasApiKey upstreamOk : Bool) (reply : UpstreamContent) : Reply :=
  if !hasFile then Reply.err 400 errNoFile
  else if !hasApiKey then Reply.err 500 errNoKey
  else if !upstreamOk then Reply.err 500 errExtractFailed
  else
    match reply with
    | UpstreamContent.missing => Reply.err 500 errNoContent
    | UpstreamContent.unparseable => Reply.err 500 errParseFailed
    | UpstreamContent.parsed e =>
      match coerceBox e.box2Federal, coerceBox e.box17State with
      | JNum.fin q2, JNum.fin q17 =>
        if q2 < 0 || q17 < 0 then Reply.err 400 errExtractInvalid
        else Reply.ok q2 q17 (JNum.fin (round2 (calculateRefund q2 q17))) ocrAiExtracted
      | _, _ => Reply.err 400 errExtractInvalid

/-! ## Legacy backend (`server.js`, src/unnamed/part_000) -/

/-- Shape of the AI reply as consumed by the legacy `/api/calculate` handler:
HTTP failure, missing content, content that fails `JSON.parse` (triggering the
fallback formula), or a parsed object with an `estimatedRefund` field. -/
inductive LegacyAIReply where
  | httpFail
  | noContent
  | unparseable
  | parsed (estimatedRefund : Option JVal)
deriving DecidableEq, Repr

/-- The legacy `POST /api/calculate` handler (part_000): same input validation
as the current one, then a 500 when the credential is missing, the AI call is
non-ok or has no content; when the AI content fails `JSON.parse`, or its
`estimatedRefund` is not a number, the fallback
`max(0, box2 + box17 - (box2*0.1 + box17*0.05))` is used; the refund is
rounded and returned with confidence tag `"manual"`. -/
def legacyApiCalculate (box2Federal box17State : Option JVal) (hasApiKey : Bool)
    (ai : LegacyAIReply) : Reply :=
  match box2Federal, box17State with
  | some (JVal.num (JNum.fin b2)), some (JVal.num (JNum.fin b17)) =>
    if b2 < 0 || b17 < 0 then Reply.err 400 errInvalidInput
    else if !hasApiKey then Reply.err 500 errLegacyConfig
    else
      match ai with
      | LegacyAIReply.httpFail => Reply.err 500 errLegacyCalcFailed
      | LegacyAIReply.noContent => Reply.err 500 errNoContent
      | LegacyAIReply.unparseable =>
        Reply.ok b2 b17
          (jsRound2 (JNum.fin (max 0 (b2 + b17 - (b2 * 0.1 + b17 * 0.05))))) ocrManual
      | LegacyAIReply.parsed est =>
        let r : JNum :=
          match est with
          | some (JVal.num x) => x
          | _ => JNum.fin (max 0 (b2 + b17 - (b2 * 0.1 + b17 * 0.05)))
        Reply.ok b2 b17 (jsRound2 r) ocrManual
  | _, _ => Reply.err 400 errInvalidInput

/-! ## Client data model (`CalculatorEmbed.tsx`) -/

/-- The `EstimateResponse` payload the client receives from the backend. -/
structure EstimateResponse where
  box2Federal : ℚ
  box17State : ℚ
  estimatedRefund : ℚ
  ocrConfidence : String
deriving DecidableEq, Repr

/-- A `CachedResult`: the estimate plus the computation timestamp and the
optional source-document name. -/
structure CachedResult extends EstimateResponse where
  calculatedAt : String
  documentName : Option String
deriving DecidableEq, Repr

/-- A browser `File` (and equally the `{buffer, name, type, lastModified}`
record the client stores in IndexedDB): raw bytes plus metadata. -/
structure JFile where
  buffer : List Nat
  name : String
  type : String
  lastModified : Nat
deriving DecidableEq, Repr

/-- The client-visible storage state: the sessionStorage result slot
(`RESULT_KEY`) and session sentinel slot (`SESSION_KEY`), the legacy
localStorage result slot (same `RESULT_KEY`), and the single IndexedDB file
slot (`FILE_KEY`).  The backends are modelled as always available: every
storage failure in the source is swallowed into a no-op. -/
structure Stores where
  sessResult : Option CachedResult
  sessSentinel : Option Nat
  localResult : Option CachedResult
  idbFile : Option JFile
deriving DecidableEq, Repr

/-! ## Session cache operations (`CalculatorEmbed.tsx`) -/

/-- `saveResultToSession`: serialize the record into the sessionStorage
result slot, overwriting any previous entry. -/
def saveResultToSession (result : CachedResult) (st : Stores) : Stores :=
  { st with sessResult := some result }

/-- `loadResultFromSession`: return the sessionStorage entry when present;
otherwise delete a legacy localStorage copy if one exists (without returning
it) and report absence. -/
def loadResultFromSession (st : Stores) : Option CachedResult × Stores :=
  match st.sessResult with
  | some stored => (some stored, st)
  | none => (none, { st with localResult := none })

/-- `clearResultFromSession`: remove the sessionStorage result entry. -/
def clearResultFromSession (st : Stores) : Stores :=
  { st with sessResult := none }

/-- `clearCachedFile`: delete the single IndexedDB file slot. -/
def clearCachedFile (st : Stores) : Stores :=
  { st with idbFile := none }

/-- `resetIfNewSession`: when the session sentinel is present, a no-op; when
absent, write the sentinel (current time, used only for presence) and purge
both the cached file and the cached result.  `now` models `Date.now()`. -/
def resetIfNewSession (now : Nat) (st : Stores) : Stores :=
  match st.sessSentinel with
  | some _ => st
  | none =>
    clearResultFromSession (clearCachedFile { st with sessSentinel := some now })

/-- `saveCachedFile`: run the new-session reset, then store the file's bytes
and metadata in the single IndexedDB slot (overwriting any previous one). -/
def saveCachedFile (file : JFile) (now : Nat) (st : Stores) : Stores :=
  let st := resetIfNewSession now st
  { st with idbFile := some { buffer := file.buffer, name := file.name,
                              type := file.type, lastModified := file.lastModified } }

/-- `loadCachedFile`: run the new-session reset, then read the IndexedDB slot
and reconstruct a `File`, defaulting an empty name to `w2.jpg`, an empty MIME
type to `image/jpeg`, and a zero `lastModified` to `Date.now()`. -/
def loadCachedFile (now : Nat) (st : Stores) : Option JFile × Stores :=
  let st := resetIfNewSession now st
  match st.idbFile with
  | none => (none, st)
  | some data =>
    (some { buffer := data.buffer,
            name := if data.name = "" then defaultFileName else data.name,
            type := if data.type = "" then mimeJpeg else data.type,
            lastModified := if data.lastModified = 0 then now else data.lastModified },
     st)

/-! ## Client UI state machine (`W2CalculatorEmbed`) -/

/-- The React state of the widget that drives rendering: the selected file,
the preview object-URL, the loading flag, the surfaced error and the
displayed result. -/
structure UI where
  file : Option JFile
  previewUrl : Option String
  loading : Bool
  error : Option String
  result : Option EstimateResponse
deriving DecidableEq, Repr

/-- What the component renders: the loading card when `loading`, the result
card when a result is displayed, otherwise the upload form (Idle /
DocumentSelected). -/
inductive View where
  | loadingView
  | resultView
  | uploadView
deriving DecidableEq, Repr

/-- The render dispatch at the top of the component body. -/
def render (ui : UI) : View :=
  if ui.loading then View.loadingView
  else if ui.result.isSome then View.resultView
  else View.uploadView

/-- `URL.createObjectURL`, modelled as a blob URL derived from the file. -/
def createObjectURL (f : JFile) : String := String.append blobScheme f.name

/-- The accepted MIME types of `onSelectFile`. -/
def validTypes : List String := [mimeJpeg, mimeJpg, mimePng, mimePdf]

/-- `onSelectFile`: record the selection, drop any displayed result and error,
clear the sessionStorage result; on a cleared selection also delete the cached
file; on an invalid MIME type drop the selection and surface a validation
error (no document-cache write); otherwise build a preview for images and
persist the document via `saveCachedFile`. -/
def onSelectFile (nextFile : Option JFile) (now : Nat) (ui : UI) (st : Stores) :
    UI × Stores :=
  let ui := { ui with file := nextFile, result := none, error := none }
  let st := clearResultFromSession st
  match nextFile with
  | none => ({ ui with previewUrl := none }, clearCachedFile st)
  | some f =>
    if !(validTypes.contains f.type) then
      ({ ui with file := none, previewUrl := none, error := some errFileType }, st)
    else
      let ui := if strStartsWith f.type mimeImages
                then { ui with previewUrl := some (createObjectURL f) }
                else ui
      (ui, saveCachedFile f now st)

/-- The synchronous head of `onCalculate`: a no-op without a selected file;
otherwise enter the submitting state (loading on, error and result cleared)
while the request is in flight. -/
def onCalculateStart (ui : UI) : UI :=
  match ui.file with
  | none => ui
  | some _ => { ui with loading := true, error := none, result := none }

/-- The continuation of `onCalculate` when the in-flight request resolves
successfully: display the received data unconditionally, save it to the
session result slot together with the timestamp and the name of the file
captured at submit time, and leave the loading state.  The source has no
guard against a reset that happened while the request was in flight. -/
def onCalculateResolveOk (data : EstimateResponse) (calculatedAt : String)
    (sentFileName : String) (ui : UI) (st : Stores) : UI × Stores :=
  let st := saveResultToSession
    { toEstimateResponse := data, calculatedAt := calculatedAt,
      documentName := some sentFileName } st
  ({ ui with result := some data, loading := false }, st)

/-- The continuation of `onCalculate` when the request fails: surface the
extracted error message and leave the loading state. -/
def onCalculateResolveErr (msg : String) (ui : UI) : UI :=
  { ui with error := some msg, loading := false }

/-- `resetCalculator`: clear the whole in-memory state (selection, result,
error, loading, preview) and both cache entries. -/
def resetCalculator (_ui : UI) (st : Stores) : UI × Stores :=
  ({ file := none, previewUrl := none, loading := false, error := none,
     result := none },
   clearCachedFile (clearResultFromSession st))

/-! ## Spec-side definitions (for refinement comparisons) -/

/-- Modelled from the spec's words: the refund formula
`max(0, (f+s) - 0.12f - 0.04s)` of §4.3 / §8, to be compared with the
source's `calculateRefund`. -/
def specRefundFormula (f s : ℚ) : ℚ := max 0 ((f + s) - 0.12 * f - 0.04 * s)

/-- Modelled from the spec's words: a `/api/calculate` body field is invalid
when it is missing, not a number, non-finite, or negative. -/
def specFieldInvalid : Option JVal → Bool
  | none => true
  | some (JVal.nonNum _) => true
  | some (JVal.num (JNum.fin q)) => decide (q < 0)
  | some (JVal.num _) => true

/-- Modelled from the claim's words: an extraction-reply field that is
neither a number nor a value `parseFloat` parses to a truthy number (so the
upload handler coerces it to 0). -/
def coercesToZero : Option JVal → Bool
  | some (JVal.num _) => false
  | some (JVal.nonNum pf) => !jsTruthy pf
  | none => true

/-! ## Sample data for witnesses and counterexamples -/

def tSample : String := "2025-01-01T00:00:00.000Z"

def samplePng : JFile :=
  { buffer := [1, 2, 3], name := "mydoc.png", type := mimePng, lastModified := 7 }

def sampleTxt : JFile :=
  { buffer := [9], name := "notes.txt", type := mimeText, lastModified := 3 }

def sampleEstimate : EstimateResponse :=
  { box2Federal := 1000, box17State := 500, estimatedRefund := 1360,
    ocrConfidence := ocrAiExtracted }

def sampleCached : CachedResult :=
  { toEstimateResponse := sampleEstimate, calculatedAt := tSample,
    documentName := some defaultFileName }

def emptyStores : Stores :=
  { sessResult := none, sessSentinel := none, localResult := none, idbFile := none }

def staleStores : Stores :=
  { sessResult := none, sessSentinel := none, localResult := some sampleCached,
    idbFile := some samplePng }

/-! ## Helper lemmas -/

theorem round2_nonneg (x : ℚ) (h : 0 ≤ x) : 0 ≤ round2 x := by
  unfold round2
  apply div_nonneg _ (by norm_num)
  have h2 : (0:ℤ) ≤ round (x * 100) := by
    rw [round_eq]
    exact Int.floor_nonneg.mpr (by positivity)
  exact_mod_cast h2

theorem resetIfNewSession_sentinel_isSome (now : Nat) (st : Stores) :
    (resetIfNewSession now st).sessSentinel.isSome := by
  cases h : st.sessSentinel <;>
    simp [resetIfNewSession, h, clearResultFromSession, clearCachedFile]

theorem resetIfNewSession_of_isSome (now : Nat) (st : Stores)
    (h : st.sessSentinel.isSome) : resetIfNewSession now st = st := by
  cases hh : st.sessSentinel
  · rw [hh] at h; simp at h
  · simp [resetIfNewSession, hh]

/-! ## Claim C1 -/

/-- Claim C1: for every pair of non-negative finite numbers `(f, s)`, the
backend refund calculation (code `calculateRefund` followed by the handler's
2-decimal rounding) equals `max(0, (f+s) - 0.12f - 0.04s)` rounded to 2
decimals, the result is non-negative, and the input `f=1000, s=500` yields
`1360.00`. -/
theorem c1_refund_formula (f s : ℚ) (hf : 0 ≤ f) (hs : 0 ≤ s) :
    round2 (calculateRefund f s) = round2 (specRefundFormula f s)
    ∧ 0 ≤ round2 (calculateRefund f s)
    ∧ round2 (calculateRefund 1000 500) = 1360 := by
  have _ := hf
  have _ := hs
  refine ⟨?_, ?_, ?_⟩
  · unfold calculateRefund specRefundFormula
    ring_nf
  · exact round2_nonneg _ (le_max_left 0 _)
  · norm_num [calculateRefund, round2, round_eq]

/-- Witness for C1 at the spec's own example `f = 1000`, `s = 500`. -/
theorem c1_witness :
    (0:ℚ) ≤ 1000 ∧ (0:ℚ) ≤ 500
    ∧ (round2 (calculateRefund 1000 500) = round2 (specRefundFormula 1000 500)
       ∧ 0 ≤ round2 (calculateRefund 1000 500)
       ∧ round2 (calculateRefund 1000 500) = 1360) :=
  ⟨by norm_num, by norm_num,
   c1_refund_formula 1000 500 (by norm_num) (by norm_num)⟩

/-! ## Claim C2 -/

/-- Claim C2 (code-bug evidence): in the run submit → reset → the in-flight
request resolves successfully, the client ends rendering the result card with
the stale response displayed and re-saved to the session store — not the
`Idle` state the spec requires.  `onCalculateResolveOk` has no guard against
a reset that fired while the request was in flight. -/
theorem c2_stale_response_displayed_after_reset :
    let ui0 : UI := { file := some samplePng, previewUrl := none,
                      loading := false, error := none, result := none }
    let st0 : Stores := { sessResult := none, sessSentinel := some 1,
                          localResult := none, idbFile := some samplePng }
    let ui1 := onCalculateStart ui0
    let p2 := resetCalculator ui1 st0
    let p3 := onCalculateResolveOk sampleEstimate tSample samplePng.name p2.1 p2.2
    render p3.1 = View.resultView
    ∧ p3.1.result = some sampleEstimate
    ∧ p3.2.sessResult = some { toEstimateResponse := sampleEstimate,
                               calculatedAt := tSample,
                               documentName := some samplePng.name } := by
  refine ⟨rfl, rfl, rfl⟩

/-! ## Claim C3 -/

/-- Claim C3: in a new session — the session-lifetime store is fresh, so the
session sentinel (and with it any session-scoped result entry) is absent —
`loadCachedFile` (loadDocument) and `loadResultFromSession` (loadResult) both
report absence, whatever document or result the cross-session stores
(IndexedDB, legacy localStorage) still physically contain. -/
theorem c3_new_session_reads_absent (st : Stores) (now : Nat)
    (hsent : st.sessSentinel = none) (hres : st.sessResult = none) :
    (loadCachedFile now st).1 = none ∧ (loadResultFromSession st).1 = none := by
  constructor
  · simp [loadCachedFile, resetIfNewSession, hsent, clearResultFromSession,
          clearCachedFile]
  · simp [loadResultFromSession, hres]

/-- Witness for C3: a new session whose cross-session stores still hold a
document and a legacy result from a previous session. -/
theorem c3_witness :
    (loadCachedFile 5 staleStores).1 = none
    ∧ (loadResultFromSession staleStores).1 = none :=
  c3_new_session_reads_absent staleStores 5 rfl rfl

/-! ## Claim C4 -/

/-- Claim C4: once `resetIfNewSession` has run (the sentinel is present),
every later call in the same session is a no-op, and a document saved via
`saveCachedFile` after the first call is still loadable — unchanged — after a
second call (for a file whose name, type and timestamp are non-degenerate, so
the load-time defaulting does not rewrite them). -/
theorem c4_reset_idempotent_after_first (st : Stores) (n1 n2 n3 n4 : Nat)
    (f : JFile) (hname : f.name ≠ "") (htype : f.type ≠ "")
    (hmod : f.lastModified ≠ 0) :
    resetIfNewSession n3 (saveCachedFile f n2 (resetIfNewSession n1 st))
      = saveCachedFile f n2 (resetIfNewSession n1 st)
    ∧ (loadCachedFile n4
        (resetIfNewSession n3 (saveCachedFile f n2 (resetIfNewSession n1 st)))).1
      = some f := by
  have h1 : (resetIfNewSession n1 st).sessSentinel.isSome :=
    resetIfNewSession_sentinel_isSome n1 st
  have h2 : saveCachedFile f n2 (resetIfNewSession n1 st)
      = { resetIfNewSession n1 st with
          idbFile := some ⟨f.buffer, f.name, f.type, f.lastModified⟩ } := by
    unfold saveCachedFile
    rw [resetIfNewSession_of_isSome n2 _ h1]
  have h3 : (saveCachedFile f n2 (resetIfNewSession n1 st)).sessSentinel.isSome := by
    rw [h2]
    exact h1
  refine ⟨resetIfNewSession_of_isSome n3 _ h3, ?_⟩
  rw [resetIfNewSession_of_isSome n3 _ h3]
  unfold loadCachedFile
  rw [resetIfNewSession_of_isSome n4 _ h3, h2]
  obtain ⟨buf, nm, ty, lm⟩ := f
  simp only at hname htype hmod
  simp [hname, htype, hmod]

/-- Witness for C4: the concrete PNG document survives a second
`resetIfNewSession` in the same session. -/
theorem c4_witness :
    samplePng.name ≠ "" ∧ samplePng.type ≠ "" ∧ samplePng.lastModified ≠ 0
    ∧ (resetIfNewSession 3 (saveCachedFile samplePng 2 (resetIfNewSession 1 emptyStores))
        = saveCachedFile samplePng 2 (resetIfNewSession 1 emptyStores)
      ∧ (loadCachedFile 4
          (resetIfNewSession 3 (saveCachedFile samplePng 2 (resetIfNewSession 1 emptyStores)))).1
        = some samplePng) :=
  ⟨by decide, by decide, by decide,
   c4_reset_idempotent_after_first emptyStores 1 2 3 4 samplePng
     (by decide) (by decide) (by decide)⟩

/-! ## Claim C8 -/

/-- Claim C8: for every `CachedResult` record, `saveResultToSession` followed
by `loadResultFromSession` in the same session (no session boundary between
the two calls) returns the record that was saved. -/
theorem c8_result_roundtrip (st : Stores) (result : CachedResult) :
    (loadResultFromSession (saveResultToSession result st)).1 = some result := by
  simp [loadResultFromSession, saveResultToSession]

/-! ## More helper lemmas and sample data -/

theorem coerceBox_eq_zero (v : Option JVal) (h : coercesToZero v = true) :
    coerceBox v = JNum.fin 0 := by
  match v with
  | none => rfl
  | some (JVal.num x) => simp [coercesToZero] at h
  | some (JVal.nonNum pf) =>
    simp [coercesToZero] at h
    simp [coerceBox, h]

def uiIdle : UI :=
  { file := none, previewUrl := none, loading := false, error := none,
    result := none }

def storesWithResult : Stores :=
  { sessResult := some sampleCached, sessSentinel := some 1, localResult := none,
    idbFile := some samplePng }

def extractedGood : Extracted :=
  { box2Federal := some (JVal.num (JNum.fin 1000)),
    box17State := some (JVal.num (JNum.fin 500)) }

def extractedMixed : Extracted :=
  { box2Federal := some (JVal.nonNum JNum.nan),
    box17State := some (JVal.num (JNum.fin (-5))) }

def extractedJunk : Extracted :=
  { box2Federal := some (JVal.nonNum JNum.nan),
    box17State := some (JVal.num (JNum.fin 500)) }

/-! ## Claim C5 -/

/-- Counterexample to claim C5 as stated: on the image-upload path a reply
whose content cannot be parsed yields a 500 error — no fallback result is
returned. -/
theorem c5_counterexample :
    apiUploadW2 true true true UpstreamContent.unparseable
      = Reply.err 500 errParseFailed
    ∧ (apiUploadW2 true true true UpstreamContent.unparseable).status ≠ 200 :=
  ⟨rfl, by decide⟩

/-- Claim C5 amended: when the extraction reply cannot be parsed, the
image-upload path fails with a 500; the secondary fallback formula
`total − federal×0.10 − state×0.05` lives in the legacy `/api/calculate`
handler, which still returns a 200 result when its AI reply cannot be
parsed. -/
theorem c5_fallback_only_in_legacy_path (b2 b17 : ℚ) (hb2 : 0 ≤ b2)
    (hb17 : 0 ≤ b17) :
    apiUploadW2 true true true UpstreamContent.unparseable
      = Reply.err 500 errParseFailed
    ∧ legacyApiCalculate (some (JVal.num (JNum.fin b2)))
        (some (JVal.num (JNum.fin b17))) true LegacyAIReply.unparseable
      = Reply.ok b2 b17
          (JNum.fin (round2 (max 0 (b2 + b17 - (b2 * 0.1 + b17 * 0.05)))))
          ocrManual := by
  refine ⟨rfl, ?_⟩
  simp [legacyApiCalculate, not_lt.mpr hb2, not_lt.mpr hb17, jsRound2]

/-- Witness for C5's amended statement at `b2 = 200`, `b17 = 100`. -/
theorem c5_witness :
    (0:ℚ) ≤ 200 ∧ (0:ℚ) ≤ 100
    ∧ (apiUploadW2 true true true UpstreamContent.unparseable
        = Reply.err 500 errParseFailed
      ∧ legacyApiCalculate (some (JVal.num (JNum.fin 200)))
          (some (JVal.num (JNum.fin 100))) true LegacyAIReply.unparseable
        = Reply.ok 200 100
            (JNum.fin (round2 (max 0 (200 + 100 - (200 * 0.1 + 100 * 0.05)))))
            ocrManual) :=
  ⟨by norm_num, by norm_num,
   c5_fallback_only_in_legacy_path 200 100 (by norm_num) (by norm_num)⟩

/-! ## Claim C6 -/

/-- Counterexample to claim C6 as stated: the multer file filter rejects a
PDF upload (`application/pdf` does not start with `image/`), while the claim
says PDFs are accepted. -/
theorem c6_counterexample : fileFilterAccepts mimePdf = false := by decide

/-- Claim C6 amended: `POST /api/upload-w2` accepts a multipart file whose
MIME type starts with `image/` (PDFs are rejected by the filter); it returns
400 when no file is provided and when the extracted values are invalid, 500
on a missing server credential, a failed upstream call, or an unusable model
reply, and on success a 200 whose `ocrConfidence` is `"ai-extracted"`. -/
theorem c6_upload_endpoint_behaviour :
    fileFilterAccepts mimeJpeg = true
    ∧ fileFilterAccepts mimePng = true
    ∧ fileFilterAccepts mimePdf = false
    ∧ (∀ k u r, apiUploadW2 false k u r = Reply.err 400 errNoFile)
    ∧ (∀ u r, apiUploadW2 true false u r = Reply.err 500 errNoKey)
    ∧ (∀ r, apiUploadW2 true true false r = Reply.err 500 errExtractFailed)
    ∧ apiUploadW2 true true true UpstreamContent.missing
        = Reply.err 500 errNoContent
    ∧ apiUploadW2 true true true UpstreamContent.unparseable
        = Reply.err 500 errParseFailed
    ∧ (∀ e q2 q17, e.box2Federal = some (JVal.num (JNum.fin q2)) →
        e.box17State = some (JVal.num (JNum.fin q17)) → 0 ≤ q2 → 0 ≤ q17 →
        apiUploadW2 true true true (UpstreamContent.parsed e)
          = Reply.ok q2 q17 (JNum.fin (round2 (calculateRefund q2 q17)))
              ocrAiExtracted)
    ∧ (∀ e q2, e.box2Federal = some (JVal.num (JNum.fin q2)) → q2 < 0 →
        apiUploadW2 true true true (UpstreamContent.parsed e)
          = Reply.err 400 errExtractInvalid) := by
  refine ⟨by decide, by decide, by decide,
          fun k u r => rfl, fun u r => rfl, fun r => rfl, rfl, rfl, ?_, ?_⟩
  · intro e q2 q17 h2 h17 hq2 hq17
    simp [apiUploadW2, h2, h17, coerceBox, not_lt.mpr hq2, not_lt.mpr hq17]
  · intro e q2 h2 hneg
    have hb2 : coerceBox e.box2Federal = JNum.fin q2 := by rw [h2]; rfl
    cases hc17 : coerceBox e.box17State <;>
      simp [apiUploadW2, hb2, hc17, hneg]

/-- Witness for C6's amended statement: a successful extraction of
`box2Federal = 1000`, `box17State = 500` yields a 200 tagged
`"ai-extracted"`. -/
theorem c6_witness :
    extractedGood.box2Federal = some (JVal.num (JNum.fin 1000))
    ∧ extractedGood.box17State = some (JVal.num (JNum.fin 500))
    ∧ (0:ℚ) ≤ 1000 ∧ (0:ℚ) ≤ 500
    ∧ apiUploadW2 true true true (UpstreamContent.parsed extractedGood)
        = Reply.ok 1000 500 (JNum.fin (round2 (calculateRefund 1000 500)))
            ocrAiExtracted :=
  ⟨rfl, rfl, by norm_num, by norm_num,
   c6_upload_endpoint_behaviour.2.2.2.2.2.2.2.2.1 extractedGood 1000 500 rfl rfl
     (by norm_num) (by norm_num)⟩

/-! ## Claim C7 -/

/-- Claim C7: `POST /api/calculate` returns 400 exactly when a body field is
missing, not a number, non-finite, or negative; every valid body gets a 200
carrying both boxes, the rounded refund and the confidence tag `"manual"`. -/
theorem c7_calculate_validation :
    (∀ b2 b17 : Option JVal,
      (apiCalculate b2 b17).status = 400
        ↔ (specFieldInvalid b2 || specFieldInvalid b17) = true)
    ∧ (∀ q2 q17 : ℚ, 0 ≤ q2 → 0 ≤ q17 →
        apiCalculate (some (JVal.num (JNum.fin q2)))
            (some (JVal.num (JNum.fin q17)))
          = Reply.ok q2 q17 (JNum.fin (round2 (calculateRefund q2 q17)))
              ocrManual) := by
  constructor
  · intro b2 b17
    rcases b2 with _ | ((q2 | _ | _ | _) | pf2) <;>
      rcases b17 with _ | ((q17 | _ | _ | _) | pf17) <;>
        simp [apiCalculate, specFieldInvalid, Reply.status]
    by_cases h2 : q2 < 0 <;> by_cases h17 : q17 < 0 <;> simp [h2, h17]
  · intro q2 q17 hq2 hq17
    simp [apiCalculate, not_lt.mpr hq2, not_lt.mpr hq17]

/-- Witness for C7 at the valid body `box2Federal = 250`, `box17State = 40`. -/
theorem c7_witness :
    (0:ℚ) ≤ 250 ∧ (0:ℚ) ≤ 40
    ∧ apiCalculate (some (JVal.num (JNum.fin 250))) (some (JVal.num (JNum.fin 40)))
      = Reply.ok 250 40 (JNum.fin (round2 (calculateRefund 250 40))) ocrManual :=
  ⟨by norm_num, by norm_num,
   c7_calculate_validation.2 250 40 (by norm_num) (by norm_num)⟩

/-! ## Claim C9 -/

/-- Counterexample to claim C9 as stated: selecting a `text/plain` file does
write to the cached-result store — `onSelectFile` clears the sessionStorage
result entry before it validates the MIME type, so a previously cached result
is erased. -/
theorem c9_counterexample :
    storesWithResult.sessResult = some sampleCached
    ∧ (onSelectFile (some sampleTxt) 9 uiIdle storesWithResult).2.sessResult
        = none :=
  ⟨rfl, rfl⟩

/-- Claim C9 amended: a file whose MIME type is outside {jpeg, png, pdf} is
rejected with a validation error and the selection is cleared; the document
cache and the session sentinel are untouched and no document-cache write
occurs, but the cached-result entry is cleared (the clear runs before the
type check). -/
theorem c9_invalid_type_rejected (ui : UI) (st : Stores) (f : JFile) (now : Nat)
    (hf : validTypes.contains f.type = false) :
    (onSelectFile (some f) now ui st).1.file = none
    ∧ (onSelectFile (some f) now ui st).1.previewUrl = none
    ∧ (onSelectFile (some f) now ui st).1.error = some errFileType
    ∧ (onSelectFile (some f) now ui st).1.result = none
    ∧ (onSelectFile (some f) now ui st).2.idbFile = st.idbFile
    ∧ (onSelectFile (some f) now ui st).2.sessSentinel = st.sessSentinel
    ∧ (onSelectFile (some f) now ui st).2.localResult = st.localResult
    ∧ (onSelectFile (some f) now ui st).2.sessResult = none := by
  have hf2 : f.type ∉ validTypes := by simpa using hf
  simp [onSelectFile, clearResultFromSession, hf2]

/-- Witness for C9's amended statement at the concrete `text/plain` file. -/
theorem c9_witness :
    validTypes.contains sampleTxt.type = false
    ∧ ((onSelectFile (some sampleTxt) 9 uiIdle storesWithResult).1.file = none
      ∧ (onSelectFile (some sampleTxt) 9 uiIdle storesWithResult).1.previewUrl = none
      ∧ (onSelectFile (some sampleTxt) 9 uiIdle storesWithResult).1.error
          = some errFileType
      ∧ (onSelectFile (some sampleTxt) 9 uiIdle storesWithResult).1.result = none
      ∧ (onSelectFile (some sampleTxt) 9 uiIdle storesWithResult).2.idbFile
          = storesWithResult.idbFile
      ∧ (onSelectFile (some sampleTxt) 9 uiIdle storesWithResult).2.sessSentinel
          = storesWithResult.sessSentinel
      ∧ (onSelectFile (some sampleTxt) 9 uiIdle storesWithResult).2.localResult
          = storesWithResult.localResult
      ∧ (onSelectFile (some sampleTxt) 9 uiIdle storesWithResult).2.sessResult
          = none) :=
  ⟨by decide, c9_invalid_type_rejected uiIdle storesWithResult sampleTxt 9 (by decide)⟩

/-! ## Claim C10 -/

/-- Counterexample to claim C10 as stated: a reply whose `box2Federal` is a
non-number parsing to `NaN` (so it is coerced to 0) but whose `box17State` is
the number `-5` makes the endpoint return 400, not the 200 the claim
asserts. -/
theorem c10_counterexample :
    coercesToZero extractedMixed.box2Federal = true
    ∧ apiUploadW2 true true true (UpstreamContent.parsed extractedMixed)
        = Reply.err 400 errExtractInvalid := by
  refine ⟨rfl, ?_⟩
  simp [apiUploadW2, extractedMixed, coerceBox, jsTruthy]

/-- Claim C10 amended: every extraction-reply field that is neither a number
nor a value `parseFloat` parses to a truthy number is coerced to 0 before
validation, and — provided each remaining field is a finite non-negative
number — the endpoint returns 200 with the refund computed as if the coerced
box were 0, rather than 400. -/
theorem c10_coercion_to_zero :
    (∀ v, coercesToZero v = true → coerceBox v = JNum.fin 0)
    ∧ (∀ e q17, coercesToZero e.box2Federal = true →
        e.box17State = some (JVal.num (JNum.fin q17)) → 0 ≤ q17 →
        apiUploadW2 true true true (UpstreamContent.parsed e)
          = Reply.ok 0 q17 (JNum.fin (round2 (calculateRefund 0 q17)))
              ocrAiExtracted)
    ∧ (∀ e q2, e.box2Federal = some (JVal.num (JNum.fin q2)) → 0 ≤ q2 →
        coercesToZero e.box17State = true →
        apiUploadW2 true true true (UpstreamContent.parsed e)
          = Reply.ok q2 0 (JNum.fin (round2 (calculateRefund q2 0)))
              ocrAiExtracted)
    ∧ (∀ e, coercesToZero e.box2Federal = true →
        coercesToZero e.box17State = true →
        apiUploadW2 true true true (UpstreamContent.parsed e)
          = Reply.ok 0 0 (JNum.fin (round2 (calculateRefund 0 0)))
              ocrAiExtracted) := by
  refine ⟨coerceBox_eq_zero, ?_, ?_, ?_⟩
  · intro e q17 h1 h2 hq
    have hb2 := coerceBox_eq_zero e.box2Federal h1
    have hb17 : coerceBox e.box17State = JNum.fin q17 := by rw [h2]; rfl
    simp [apiUploadW2, hb2, hb17, not_lt.mpr hq]
  · intro e q2 h2 hq h17
    have hb2 : coerceBox e.box2Federal = JNum.fin q2 := by rw [h2]; rfl
    have hb17 := coerceBox_eq_zero e.box17State h17
    simp [apiUploadW2, hb2, hb17, not_lt.mpr hq]
  · intro e h2 h17
    have hb2 := coerceBox_eq_zero e.box2Federal h2
    have hb17 := coerceBox_eq_zero e.box17State h17
    simp [apiUploadW2, hb2, hb17]

/-- Witness for C10's amended statement: an unparseable `box2Federal`
together with `box17State = 500` yields a 200 with the refund computed for
`box2Federal = 0`. -/
theorem c10_witness :
    coercesToZero extractedJunk.box2Federal = true
    ∧ extractedJunk.box17State = some (JVal.num (JNum.fin 500))
    ∧ (0:ℚ) ≤ 500
    ∧ apiUploadW2 true true true (UpstreamContent.parsed extractedJunk)
      = Reply.ok 0 500 (JNum.fin (round2 (calculateRefund 0 500)))
          ocrAiExtracted :=
  ⟨rfl, rfl, by norm_num,
   c10_coercion_to_zero.2.1 extractedJunk 500 rfl rfl (by norm_num)⟩
